import Mathlib

/-!
Verification of the mc admin-user commands (service-account add, user disable).

The Go source under `cmd/` is shallowly embedded: the `svcAcctMessage` struct
becomes a Lean structure, its `String`/`JSON` methods become pure functions
(Go's `switch` on the operation tag is an if-chain on string equality, and
`encoding/json` marshalling with `omitempty` tags becomes an ordered
association list that drops empty fields), and the two command handlers
become functions from a CLI context and a collaborator oracle to the list of
observable events they perform, in program order.  `fatalIf` terminates the
process on a non-nil error, so an error step ends the event trace.
-/

/-- JSON values appearing in the marshalled output of `svcAcctMessage`:
strings, booleans and string arrays. -/
inductive JVal where
  | str (s : String)
  | jbool (b : Bool)
  | arr (xs : List String)
deriving DecidableEq, Repr

/-- The `svcAcctMessage` container from `admin-user-svcacct-add.go`.
Field defaults are Go's zero values, as left by a composite literal that
omits them.  `op` carries no json tag and is unexported, so it is never
serialized; `Status` is tagged `json:"status"` with no `omitempty`; every
other field is tagged `omitempty`. -/
structure SvcAcctMessage where
  op : String := ""
  Status : String := ""
  AccessKey : String := ""
  SecretKey : String := ""
  ParentUser : String := ""
  ImpliedPolicy : Bool := false
  Policy : String := ""
  AccountStatus : String := ""
  MemberOf : List String := []
deriving DecidableEq, Repr

/-- `accessFieldMaxLen` from the source: the column width used by the `ls`
rendering. -/
def accessFieldMaxLen : Nat := 20

/-- The external `console.Colorize` collaborator: with no color profile
configured it returns the text unchanged; color escape codes are outside the
text contract, so it is modelled as the identity on the text. -/
def Colorize (_tag : String) (s : String) : String := s

/-- Modelled from the spec: `newPrettyTable`/`buildRow` live in this
repository's `cmd/pretty-table.go`, which is not under `src/`.  The spec
describes the `ls` human rendering as a single table row built from the
access key alone, formatted into a fixed-width column of
`accessFieldMaxLen` (20) characters. -/
def buildRow (width : Nat) (content : String) : String :=
  content ++ String.mk (List.replicate (width - content.length) ' ')

/-- `svcAcctMessage.String`: Go's `switch u.op` rendered as an if-chain on
string equality, one fixed template per known operation tag, empty string
for any other tag (the switch has no default case and falls through to
`return ""`). -/
def svcAcctString (u : SvcAcctMessage) : String :=
  if u.op = "ls" then
    buildRow accessFieldMaxLen u.AccessKey
  else if u.op = "info" then
    Colorize "UserMessage" (String.intercalate "\n"
      ["AccessKey: " ++ u.AccessKey,
       "ParentUser: " ++ u.ParentUser,
       "Status: " ++ u.AccountStatus,
       "Policy: " ++ (if u.ImpliedPolicy then "implied" else "embedded")])
  else if u.op = "rm" then
    Colorize "UserMessage" ("Removed service account `" ++ u.AccessKey ++ "` successfully.")
  else if u.op = "disable" then
    Colorize "UserMessage" ("Disabled service account `" ++ u.AccessKey ++ "` successfully.")
  else if u.op = "enable" then
    Colorize "UserMessage" ("Enabled service account `" ++ u.AccessKey ++ "` successfully.")
  else if u.op = "add" then
    Colorize "UserMessage" ("Access Key: " ++ u.AccessKey ++ "\nSecret Key: " ++ u.SecretKey)
  else if u.op = "set" then
    Colorize "UserMessage" ("Edited service account `" ++ u.AccessKey ++ "` successfully.")
  else ""

/-- The operation tags handled by `svcAcctMessage.String`. -/
def knownOps : List String := ["ls", "info", "rm", "disable", "enable", "add", "set"]

/-- Go `encoding/json` marshalling of `svcAcctMessage` as an ordered
association list: keys appear in struct-field order; a field tagged
`omitempty` is dropped when its value is the zero value (empty string,
false, nil/empty slice); `status` has no `omitempty` and is always
present; the unexported `op` is never serialized. -/
def marshalFields (u : SvcAcctMessage) : List (String × JVal) :=
  [("status", JVal.str u.Status)]
  ++ (if u.AccessKey = "" then [] else [("accessKey", JVal.str u.AccessKey)])
  ++ (if u.SecretKey = "" then [] else [("secretKey", JVal.str u.SecretKey)])
  ++ (if u.ParentUser = "" then [] else [("parentUser", JVal.str u.ParentUser)])
  ++ (if u.ImpliedPolicy = false then [] else [("impliedPolicy", JVal.jbool u.ImpliedPolicy)])
  ++ (if u.Policy = "" then [] else [("policy", JVal.str u.Policy)])
  ++ (if u.AccountStatus = "" then [] else [("accountStatus", JVal.str u.AccountStatus)])
  ++ (if u.MemberOf = [] then [] else [("memberOf", JVal.arr u.MemberOf)])

/-- `svcAcctMessage.JSON`: the method body first sets `u.Status = "success"`
on its value receiver, then marshals. -/
def svcAcctJSON (u : SvcAcctMessage) : List (String × JVal) :=
  marshalFields { u with Status := "success" }

/-- The set of keys present in the JSON rendering of a message. -/
def jsonKeys (u : SvcAcctMessage) : List String :=
  (svcAcctJSON u).map Prod.fst

/-- First value bound to a key in a marshalled object. -/
def jsonLookup (k : String) : List (String × JVal) → Option JVal
  | [] => none
  | (k₁, v) :: rest => if k₁ = k then some v else jsonLookup k rest

/-- Go method-call semantics of `func (u svcAcctMessage) JSON()`: the
receiver is passed by value, so the method body mutates a local copy
(`u.Status = "success"`) and the caller's value is returned unchanged
alongside the rendered output. -/
def svcAcctJSONCall (u : SvcAcctMessage) : List (String × JVal) × SvcAcctMessage :=
  let recv := { u with Status := "success" }
  (marshalFields recv, u)

/-- Go method-call semantics of `func (u svcAcctMessage) String()`: value
receiver, no mutation at all; output paired with the caller's value after
the call. -/
def svcAcctStringCall (u : SvcAcctMessage) : String × SvcAcctMessage :=
  (svcAcctString u, u)

/-- Modelled from the spec: the `userMessage` outcome type used by the
disable command is declared elsewhere in this repository (not under
`src/`); the disable handler populates only its operation tag and
`AccessKey`. -/
structure UserMessage where
  op : String := ""
  AccessKey : String := ""
deriving DecidableEq, Repr

/-- Modelled from the spec: `userMessage.String` is not under `src/`; the
spec gives the human rendering of a disable outcome as
"Disabled service account `ACCOUNT` successfully.". -/
def userMessageString (m : UserMessage) : String :=
  if m.op = "disable" then
    Colorize "UserMessage" ("Disabled service account `" ++ m.AccessKey ++ "` successfully.")
  else ""

/-- `madmin.AccountStatus`: the status argument of `SetUserStatus`. -/
inductive AccountStatus where
  | accountEnabled
  | accountDisabled
deriving DecidableEq, Repr

/-- `madmin.AddServiceAccountReq`: the request sent by the add command.
`Policy` is a Go byte slice, `none` when nil (no `--policy` flag). -/
structure AddServiceAccountReq where
  Policy : Option (List Nat) := none
  AccessKey : String := ""
  SecretKey : String := ""
  TargetUser : String := ""
deriving DecidableEq, Repr

/-- The credentials returned by a successful `AddServiceAccount` call. -/
structure Creds where
  AccessKey : String := ""
  SecretKey : String := ""
deriving DecidableEq, Repr

/-- The slice of `cli.Context` the two handlers read: positional arguments
and the three string flags of the add command (Go's flag lookup returns ""
for an unset flag; the disable command has no command-specific flags). -/
structure CliCtx where
  args : List String := []
  accessKey : String := ""
  secretKey : String := ""
  policyPath : String := ""

/-- The collaborator oracle: results of the external calls a handler may
make (admin-client construction, policy-file read, policy parse, the two
remote operations).  `parseConfig` only succeeds or fails; the parsed AST
is discarded by the source (`_, e = iampolicy.ParseConfig(...)`). -/
structure Remote where
  newAdminClient : String → Except String Unit
  readFile : String → Except String (List Nat)
  parseConfig : List Nat → Except String Unit
  addServiceAccount : AddServiceAccountReq → Except String Creds
  setUserStatus : String → AccountStatus → Except String Unit

/-- Observable events of one command invocation, in program order.
`errMsg`/`showHelp`/`exited` describe the fatal-error and usage paths:
`fatalIf` prints a diagnostic and terminates with a non-zero status
(modelled from the spec: `fatalIf` is not under `src/`; the spec's usage
taxonomy says a usage error prints help text and exits with code 1, and
`cli.ShowCommandHelpAndExit(ctx, cmd, 1)` prints help and exits 1). -/
inductive Event where
  | showHelp (cmd : String)
  | errMsg (msg : String)
  | exited (code : Nat)
  | connect (url : String)
  | readFile (path : String)
  | parsePolicy (doc : List Nat)
  | addSvcAcct (req : AddServiceAccountReq)
  | setUserStatus (user : String) (status : AccountStatus)
  | printedSvc (m : SvcAcctMessage)
  | printedUser (m : UserMessage)
deriving DecidableEq, Repr

/-- Collaborator calls, as the spec counts them: connection, file read,
policy parse, and the two remote operations. -/
def isCollabCall : Event → Bool
  | .connect _ => true
  | .readFile _ => true
  | .parsePolicy _ => true
  | .addSvcAcct _ => true
  | .setUserStatus _ _ => true
  | _ => false

/-- Number of collaborator calls in a trace. -/
def collabCalls (t : List Event) : Nat := (t.filter isCollabCall).length

/-- Number of `AddServiceAccount` remote calls in a trace. -/
def addSvcAcctCalls (t : List Event) : Nat :=
  (t.filter fun e => match e with | .addSvcAcct _ => true | _ => false).length

/-- The optional-policy resolution step of `mainAdminUserSvcAcctAdd` (the
`if policyPath != ""` block): read the file, then parse it, each failure
fatal; an empty path means no policy override (`buf` stays nil).  Returns
the collaborator events performed and either the resolved document or the
fatal diagnostic. -/
def resolvePolicyDoc (path : String) (r : Remote) :
    List Event × Except String (Option (List Nat)) :=
  if path = "" then ([], .ok none)
  else
    match r.readFile path with
    | .error _ => ([.readFile path], .error "Unable to open the policy document.")
    | .ok buf =>
      match r.parseConfig buf with
      | .error _ => ([.readFile path, .parsePolicy buf],
                     .error "Unable to parse the policy document.")
      | .ok _ => ([.readFile path, .parsePolicy buf], .ok (some buf))

/-- `mainAdminUserSvcAcctAdd` from `admin-user-svcacct-add.go`, as the event
trace it produces: syntax check (exact arity 2), admin-client construction,
optional policy read + parse (only when `--policy` was given), the
`AddServiceAccount` remote call with the flags forwarded verbatim, and on
success the printed `svcAcctMessage` with `op = "add"` and
`AccountStatus = "enabled"`.  Every `fatalIf` failure ends the trace with a
diagnostic and a non-zero exit. -/
def mainAdminUserSvcAcctAdd (ctx : CliCtx) (r : Remote) : List Event :=
  if ctx.args.length ≠ 2 then
    [.errMsg "Incorrect number of arguments for user svcacct add command.",
     .showHelp "add", .exited 1]
  else
    let aliasedURL := ctx.args.getD 0 ""
    let user := ctx.args.getD 1 ""
    Event.connect aliasedURL ::
      match r.newAdminClient aliasedURL with
      | .error _ => [.errMsg "Unable to initialize admin connection.", .exited 1]
      | .ok _ =>
        match resolvePolicyDoc ctx.policyPath r with
        | (evs, .error m) => evs ++ [.errMsg m, .exited 1]
        | (evs, .ok buf) =>
          let opts : AddServiceAccountReq :=
            { Policy := buf, AccessKey := ctx.accessKey,
              SecretKey := ctx.secretKey, TargetUser := user }
          evs ++ Event.addSvcAcct opts ::
            match r.addServiceAccount opts with
            | .error _ => [.errMsg "Unable to add a new service account", .exited 1]
            | .ok creds =>
              [.printedSvc { op := "add", AccessKey := creds.AccessKey,
                             SecretKey := creds.SecretKey, AccountStatus := "enabled" }]

/-- `mainAdminUserDisable` from the unnamed source file: syntax check via
`cli.ShowCommandHelpAndExit(ctx, "disable", 1)` on arity mismatch, then
admin-client construction, the `SetUserStatus(user, AccountDisabled)`
remote call, and on success the printed `userMessage` with
`op = "disable"` and the second argument as `AccessKey`. -/
def mainAdminUserDisable (ctx : CliCtx) (r : Remote) : List Event :=
  if ctx.args.length ≠ 2 then
    [.showHelp "disable", .exited 1]
  else
    let aliasedURL := ctx.args.getD 0 ""
    Event.connect aliasedURL ::
      match r.newAdminClient aliasedURL with
      | .error _ => [.errMsg "Unable to initialize admin connection.", .exited 1]
      | .ok _ =>
        Event.setUserStatus (ctx.args.getD 1 "") AccountStatus.accountDisabled ::
          match r.setUserStatus (ctx.args.getD 1 "") AccountStatus.accountDisabled with
          | .error _ => [.errMsg "Unable to disable user", .exited 1]
          | .ok _ => [.printedUser { op := "disable", AccessKey := ctx.args.getD 1 "" }]

/-- A collaborator oracle on which every call succeeds. -/
def remoteOk : Remote where
  newAdminClient _ := .ok ()
  readFile _ := .ok [123]
  parseConfig _ := .ok ()
  addServiceAccount _ := .ok { AccessKey := "AK", SecretKey := "SK" }
  setUserStatus _ _ := .ok ()

/-- A collaborator oracle whose policy parser rejects every document. -/
def remoteParseErr : Remote where
  newAdminClient _ := .ok ()
  readFile _ := .ok [123]
  parseConfig _ := .error "policy must have Version"
  addServiceAccount _ := .ok { AccessKey := "AK", SecretKey := "SK" }
  setUserStatus _ _ := .ok ()

lemma string_append_ne_empty_left (a b : String) (h : a.data ≠ []) : a ++ b ≠ "" := by
  intro e
  have hd : (a ++ b).data = [] := by rw [e]
  rw [String.data_append] at hd
  exact h (List.append_eq_nil.mp hd).1

lemma data_append_ne_left (a b : String) (h : a.data ≠ []) : (a ++ b).data ≠ [] := by
  rw [String.data_append]
  exact fun e => h (List.append_eq_nil.mp e).1

lemma buildRow_ne_empty (s : String) : buildRow accessFieldMaxLen s ≠ "" := by
  intro e
  have hd : (buildRow accessFieldMaxLen s).data = [] := by rw [e]
  unfold buildRow at hd
  rw [String.data_append] at hd
  obtain ⟨hs, hrep⟩ := List.append_eq_nil.mp hd
  have hlen : s.length = 0 := by simp [String.length, hs]
  rw [hlen] at hrep
  simp [accessFieldMaxLen] at hrep

lemma resolvePolicyDoc_no_printed (path : String) (r : Remote) (m : SvcAcctMessage) :
    Event.printedSvc m ∉ (resolvePolicyDoc path r).1 := by
  unfold resolvePolicyDoc
  split
  · simp
  · split <;> [simp; skip]
    split <;> simp

lemma jsonLookup_accountStatus_addMsg (k s : String) :
    jsonLookup "accountStatus"
      (svcAcctJSON { op := "add", AccessKey := k, SecretKey := s, AccountStatus := "enabled" })
      = some (JVal.str "enabled") := by
  by_cases hk : k = "" <;> by_cases hs : s = "" <;>
    simp [svcAcctJSON, marshalFields, jsonLookup, hk, hs]

/-- Claim C1, counterexample: the claim says the JSON rendering of an
`add` outcome contains no `accountStatus` key, but the very message the add
handler prints (reachable below on a successful run) carries
`AccountStatus = "enabled"`, which is non-empty and therefore serialized:
`"accountStatus"` is among its JSON keys. -/
theorem add_json_carries_accountStatus_key :
    SvcAcctMessage.op
        { op := "add", AccessKey := "AK", SecretKey := "SK", AccountStatus := "enabled" } = "add"
    ∧ "accountStatus" ∈ jsonKeys
        { op := "add", AccessKey := "AK", SecretKey := "SK", AccountStatus := "enabled" }
    ∧ Event.printedSvc
        { op := "add", AccessKey := "AK", SecretKey := "SK", AccountStatus := "enabled" }
        ∈ mainAdminUserSvcAcctAdd { args := ["myminio", "foobar"] } remoteOk :=
  ⟨rfl, by decide, by decide⟩

/-- Claim C1, amended: JSON rendering of the message printed by the add
handler omits the `memberOf`, `policy`, `parentUser` and `impliedPolicy`
keys (their values are empty, hence dropped by `omitempty`), but the
`accountStatus` key is present, because the add handler populates that
field with "enabled". -/
theorem add_json_sparse_fields_amended (k s : String) :
    "memberOf" ∉ jsonKeys { op := "add", AccessKey := k, SecretKey := s, AccountStatus := "enabled" }
    ∧ "policy" ∉ jsonKeys { op := "add", AccessKey := k, SecretKey := s, AccountStatus := "enabled" }
    ∧ "parentUser" ∉ jsonKeys { op := "add", AccessKey := k, SecretKey := s, AccountStatus := "enabled" }
    ∧ "impliedPolicy" ∉ jsonKeys { op := "add", AccessKey := k, SecretKey := s, AccountStatus := "enabled" }
    ∧ "accountStatus" ∈ jsonKeys { op := "add", AccessKey := k, SecretKey := s, AccountStatus := "enabled" } := by
  by_cases hk : k = "" <;> by_cases hs : s = "" <;>
    simp [jsonKeys, svcAcctJSON, marshalFields, hk, hs]

/-- Claim C2: the human rendering is a total function of the message (hence
deterministic); it is non-empty for every message whose operation tag is
one of the seven known tags, and the empty string for every other tag. -/
theorem human_render_known_nonempty_unknown_empty (u : SvcAcctMessage) :
    (u.op ∈ knownOps → svcAcctString u ≠ "")
    ∧ (u.op ∉ knownOps → svcAcctString u = "") := by
  constructor
  · intro h
    simp [knownOps] at h
    rcases h with h | h | h | h | h | h | h <;> simp only [svcAcctString, h] <;> simp <;>
      first
      | exact buildRow_ne_empty _
      | (apply string_append_ne_empty_left
         repeat apply data_append_ne_left
         decide)
  · intro h
    simp [knownOps] at h
    obtain ⟨h1, h2, h3, h4, h5, h6, h7⟩ := h
    simp [svcAcctString, h1, h2, h3, h4, h5, h6, h7]

/-- Claim C2, witness: a known tag (`add`) renders non-empty; an
unrecognized tag renders as the empty string. -/
theorem human_render_known_nonempty_unknown_empty_witness :
    svcAcctString { op := "add", AccessKey := "AK", SecretKey := "SK" } ≠ ""
    ∧ svcAcctString { op := "frobnicate" } = "" :=
  ⟨(human_render_known_nonempty_unknown_empty
      { op := "add", AccessKey := "AK", SecretKey := "SK" }).1 (by decide),
   (human_render_known_nonempty_unknown_empty { op := "frobnicate" }).2 (by decide)⟩

/-- Claim C3, counterexample: with a policy path supplied and a parser that
rejects the document, the trace opens with the `connect` collaborator call,
before the policy file is even read — the policy document is resolved
after, not before, the connection is established, and the number of
collaborator calls made before the fatal exit is 3, not zero. -/
theorem policy_checked_after_connect_counterexample :
    mainAdminUserSvcAcctAdd
        { args := ["myminio", "foobar"], policyPath := "bad.json" } remoteParseErr
      = [.connect "myminio", .readFile "bad.json", .parsePolicy [123],
         .errMsg "Unable to parse the policy document.", .exited 1]
    ∧ collabCalls (mainAdminUserSvcAcctAdd
        { args := ["myminio", "foobar"], policyPath := "bad.json" } remoteParseErr) ≠ 0 :=
  ⟨by decide, by decide⟩

/-- Claim C3, amended: the connection to the remote alias is established
first; the policy document is resolved after it but before the remote
`AddServiceAccount` call, so a syntactically invalid policy file makes the
process exit fatally with zero `AddServiceAccount` calls (though the
connect and file-read collaborators have already been invoked). -/
theorem invalid_policy_fails_before_add_call
    (a acct ak sk p emsg : String) (doc : List Nat) (r : Remote)
    (hp : p ≠ "")
    (hc : r.newAdminClient a = .ok ())
    (hr : r.readFile p = .ok doc)
    (hx : r.parseConfig doc = .error emsg) :
    mainAdminUserSvcAcctAdd
        { args := [a, acct], accessKey := ak, secretKey := sk, policyPath := p } r
      = [.connect a, .readFile p, .parsePolicy doc,
         .errMsg "Unable to parse the policy document.", .exited 1]
    ∧ addSvcAcctCalls (mainAdminUserSvcAcctAdd
        { args := [a, acct], accessKey := ak, secretKey := sk, policyPath := p } r) = 0 := by
  have htr : mainAdminUserSvcAcctAdd
      { args := [a, acct], accessKey := ak, secretKey := sk, policyPath := p } r
      = [.connect a, .readFile p, .parsePolicy doc,
         .errMsg "Unable to parse the policy document.", .exited 1] := by
    simp [mainAdminUserSvcAcctAdd, resolvePolicyDoc, hc, hr, hx, hp]
  refine ⟨htr, ?_⟩
  rw [htr]
  rfl

/-- Claim C3, amended, witness: concrete run with a rejected policy
document. -/
theorem invalid_policy_fails_before_add_call_witness :
    mainAdminUserSvcAcctAdd
        { args := ["myminio", "foobar"], policyPath := "bad.json" } remoteParseErr
      = [.connect "myminio", .readFile "bad.json", .parsePolicy [123],
         .errMsg "Unable to parse the policy document.", .exited 1]
    ∧ addSvcAcctCalls (mainAdminUserSvcAcctAdd
        { args := ["myminio", "foobar"], policyPath := "bad.json" } remoteParseErr) = 0 :=
  invalid_policy_fails_before_add_call "myminio" "foobar" "" "" "bad.json"
    "policy must have Version" [123] remoteParseErr (by decide) rfl rfl rfl

/-- Claim C4: with two positional arguments and whatever `--access-key` and
`--secret-key` values (empty strings when the flags are absent) and no
policy flag, the handler sends exactly one `AddServiceAccount` request with
`TargetUser` equal to the second argument verbatim, the two keys forwarded
verbatim and `Policy` nil; on success it prints the add outcome whose human
rendering is exactly "Access Key: K\nSecret Key: S" filled with the
returned credentials. -/
theorem add_forwards_args_verbatim_and_renders_keys
    (a acct ak sk : String) (r : Remote) (cr : Creds)
    (hc : r.newAdminClient a = .ok ())
    (hs : r.addServiceAccount
        { Policy := none, AccessKey := ak, SecretKey := sk, TargetUser := acct } = .ok cr) :
    mainAdminUserSvcAcctAdd { args := [a, acct], accessKey := ak, secretKey := sk } r
      = [.connect a,
         .addSvcAcct { Policy := none, AccessKey := ak, SecretKey := sk, TargetUser := acct },
         .printedSvc { op := "add", AccessKey := cr.AccessKey, SecretKey := cr.SecretKey,
                       AccountStatus := "enabled" }]
    ∧ svcAcctString { op := "add", AccessKey := cr.AccessKey, SecretKey := cr.SecretKey,
                      AccountStatus := "enabled" }
      = "Access Key: " ++ cr.AccessKey ++ "\nSecret Key: " ++ cr.SecretKey := by
  constructor
  · simp [mainAdminUserSvcAcctAdd, resolvePolicyDoc, hc, hs]
  · simp [svcAcctString, Colorize]

/-- Claim C4, witness: a concrete flagless run against an all-success
collaborator. -/
theorem add_forwards_args_verbatim_and_renders_keys_witness :
    mainAdminUserSvcAcctAdd { args := ["myminio", "foobar"] } remoteOk
      = [.connect "myminio",
         .addSvcAcct { Policy := none, AccessKey := "", SecretKey := "", TargetUser := "foobar" },
         .printedSvc { op := "add", AccessKey := "AK", SecretKey := "SK",
                       AccountStatus := "enabled" }]
    ∧ svcAcctString { op := "add", AccessKey := "AK", SecretKey := "SK",
                      AccountStatus := "enabled" }
      = "Access Key: AK\nSecret Key: SK" :=
  add_forwards_args_verbatim_and_renders_keys "myminio" "foobar" "" "" remoteOk
    { AccessKey := "AK", SecretKey := "SK" } rfl rfl

/-- Claim C5: with exactly two arguments and a successful remote
status-set call (second argument as the user, status disabled), the
disable handler prints an outcome with operation tag `disable` and
`AccessKey` equal to the second argument verbatim, whose human rendering
is "Disabled service account `ACCOUNT` successfully." (the rendering is
spec-modelled: `userMessage.String` is not under `src/`). -/
theorem disable_outcome_message_and_render
    (a acct : String) (r : Remote)
    (hc : r.newAdminClient a = .ok ())
    (hs : r.setUserStatus acct AccountStatus.accountDisabled = .ok ()) :
    mainAdminUserDisable { args := [a, acct] } r
      = [.connect a, .setUserStatus acct AccountStatus.accountDisabled,
         .printedUser { op := "disable", AccessKey := acct }]
    ∧ userMessageString { op := "disable", AccessKey := acct }
      = "Disabled service account `" ++ acct ++ "` successfully." := by
  constructor
  · simp [mainAdminUserDisable, hc, hs]
  · simp [userMessageString, Colorize]

/-- Claim C5, witness: a concrete disable run against an all-success
collaborator. -/
theorem disable_outcome_message_and_render_witness :
    mainAdminUserDisable { args := ["myminio", "foobar"] } remoteOk
      = [.connect "myminio", .setUserStatus "foobar" AccountStatus.accountDisabled,
         .printedUser { op := "disable", AccessKey := "foobar" }]
    ∧ userMessageString { op := "disable", AccessKey := "foobar" }
      = "Disabled service account `foobar` successfully." :=
  disable_outcome_message_and_render "myminio" "foobar" remoteOk rfl rfl

/-- Claim C6: with any argument count other than 2, both handlers stop at
the syntax check: the whole trace is the usage-error termination (help
printed, exit code 1) and contains zero collaborator calls — no
connection, no file read, no remote call. -/
theorem arity_mismatch_short_circuits (ctx : CliCtx) (r : Remote)
    (h : ctx.args.length ≠ 2) :
    (mainAdminUserSvcAcctAdd ctx r
       = [.errMsg "Incorrect number of arguments for user svcacct add command.",
          .showHelp "add", .exited 1]
     ∧ collabCalls (mainAdminUserSvcAcctAdd ctx r) = 0)
    ∧ (mainAdminUserDisable ctx r = [.showHelp "disable", .exited 1]
       ∧ collabCalls (mainAdminUserDisable ctx r) = 0) := by
  have h1 : mainAdminUserSvcAcctAdd ctx r
      = [.errMsg "Incorrect number of arguments for user svcacct add command.",
         .showHelp "add", .exited 1] := by
    unfold mainAdminUserSvcAcctAdd
    rw [if_pos h]
  have h2 : mainAdminUserDisable ctx r = [.showHelp "disable", .exited 1] := by
    unfold mainAdminUserDisable
    rw [if_pos h]
  exact ⟨⟨h1, by rw [h1]; rfl⟩, ⟨h2, by rw [h2]; rfl⟩⟩

/-- Claim C6, witness: one positional argument trips the usage error on
both commands. -/
theorem arity_mismatch_short_circuits_witness :
    (mainAdminUserSvcAcctAdd { args := ["myminio"] } remoteOk
       = [.errMsg "Incorrect number of arguments for user svcacct add command.",
          .showHelp "add", .exited 1]
     ∧ collabCalls (mainAdminUserSvcAcctAdd { args := ["myminio"] } remoteOk) = 0)
    ∧ (mainAdminUserDisable { args := ["myminio"] } remoteOk
         = [.showHelp "disable", .exited 1]
       ∧ collabCalls (mainAdminUserDisable { args := ["myminio"] } remoteOk) = 0) :=
  arity_mismatch_short_circuits { args := ["myminio"] } remoteOk (by decide)

/-- Claim C7: for every message, whatever its construction-time field
values, the JSON rendering carries a `status` key bound to the string
"success" — the method overwrites its receiver copy with
`Status = "success"` before marshalling and `status` has no `omitempty`. -/
theorem json_status_always_success (u : SvcAcctMessage) :
    (svcAcctJSON u).head? = some ("status", JVal.str "success")
    ∧ jsonLookup "status" (svcAcctJSON u) = some (JVal.str "success") :=
  ⟨rfl, rfl⟩

/-- Claim C8: rendering never mutates the message the caller holds: both
methods take the receiver by value, so after either call the caller's
message is unchanged field-for-field, even though the JSON body set
`Status = "success"` on its local copy before marshalling. -/
theorem render_does_not_mutate_message (u : SvcAcctMessage) :
    (svcAcctJSONCall u).2 = u
    ∧ (svcAcctStringCall u).2 = u
    ∧ (svcAcctJSONCall u).1 = svcAcctJSON u
    ∧ jsonLookup "status" (svcAcctJSONCall u).1 = some (JVal.str "success") :=
  ⟨rfl, rfl, rfl, rfl⟩

/-- Claim C9: every message the add handler ever prints — for any CLI
context and any collaborator behavior — has `AccountStatus = "enabled"`
(the handler hardcodes it; nothing returned by the remote flows into it),
so the add JSON output always carries `accountStatus = "enabled"`. -/
theorem add_accountStatus_always_enabled (ctx : CliCtx) (r : Remote) (m : SvcAcctMessage)
    (h : Event.printedSvc m ∈ mainAdminUserSvcAcctAdd ctx r) :
    m.AccountStatus = "enabled"
    ∧ jsonLookup "accountStatus" (svcAcctJSON m) = some (JVal.str "enabled") := by
  unfold mainAdminUserSvcAcctAdd at h
  split at h
  · simp at h
  · simp only [] at h
    split at h
    · simp at h
    · split at h
      · next evs emsg heq =>
        simp only [List.mem_cons, List.mem_append] at h
        rcases h with h | h | h
        · simp at h
        · exact absurd (heq ▸ h : Event.printedSvc m ∈ (resolvePolicyDoc ctx.policyPath r).1)
            (by exact resolvePolicyDoc_no_printed _ _ _)
        · simp at h
      · next evs buf heq =>
        split at h
        · simp only [List.mem_cons, List.mem_append] at h
          rcases h with h | h | h
          · simp at h
          · exact absurd (heq ▸ h : Event.printedSvc m ∈ (resolvePolicyDoc ctx.policyPath r).1)
              (by exact resolvePolicyDoc_no_printed _ _ _)
          · simp at h
        · simp only [List.mem_cons, List.mem_append] at h
          rcases h with h | h | h
          · simp at h
          · exact absurd (heq ▸ h : Event.printedSvc m ∈ (resolvePolicyDoc ctx.policyPath r).1)
              (by exact resolvePolicyDoc_no_printed _ _ _)
          · simp at h
            subst h
            exact ⟨rfl, jsonLookup_accountStatus_addMsg _ _⟩

/-- Claim C9, witness: the message printed by a concrete successful add run
has `AccountStatus = "enabled"` and serializes it. -/
theorem add_accountStatus_always_enabled_witness :
    SvcAcctMessage.AccountStatus
        { op := "add", AccessKey := "AK", SecretKey := "SK", AccountStatus := "enabled" }
      = "enabled"
    ∧ jsonLookup "accountStatus" (svcAcctJSON
        { op := "add", AccessKey := "AK", SecretKey := "SK", AccountStatus := "enabled" })
      = some (JVal.str "enabled") :=
  add_accountStatus_always_enabled { args := ["myminio", "foobar"] } remoteOk
    { op := "add", AccessKey := "AK", SecretKey := "SK", AccountStatus := "enabled" }
    (by decide)

/-- Claim C10: for every message with operation tag `ls`, the human
rendering is the single table row obtained by formatting the access key
into the fixed-width `accessFieldMaxLen` (20) column, and it depends on no
field other than `AccessKey` (the row formatter is spec-modelled:
`newPrettyTable`/`buildRow` are not under `src/`). -/
theorem ls_render_depends_only_on_accessKey (u : SvcAcctMessage) (h : u.op = "ls") :
    svcAcctString u = buildRow accessFieldMaxLen u.AccessKey
    ∧ ∀ v : SvcAcctMessage, v.op = "ls" → v.AccessKey = u.AccessKey →
        svcAcctString v = svcAcctString u := by
  have key : ∀ w : SvcAcctMessage, w.op = "ls" →
      svcAcctString w = buildRow accessFieldMaxLen w.AccessKey := by
    intro w hw
    simp [svcAcctString, hw]
  refine ⟨key u h, ?_⟩
  intro v hv hk
  rw [key v hv, key u h, hk]

/-- Claim C10, witness: two `ls` messages sharing an access key but
differing in every other populated field render identically, as the
fixed-width row of the access key. -/
theorem ls_render_depends_only_on_accessKey_witness :
    svcAcctString { op := "ls", AccessKey := "AK", ParentUser := "P" }
      = buildRow accessFieldMaxLen "AK"
    ∧ svcAcctString { op := "ls", AccessKey := "AK", SecretKey := "ZZZ" }
      = svcAcctString { op := "ls", AccessKey := "AK", ParentUser := "P" } :=
  ⟨(ls_render_depends_only_on_accessKey { op := "ls", AccessKey := "AK", ParentUser := "P" } rfl).1,
   (ls_render_depends_only_on_accessKey { op := "ls", AccessKey := "AK", ParentUser := "P" } rfl).2
     { op := "ls", AccessKey := "AK", SecretKey := "ZZZ" } rfl rfl⟩
